import Mathlib

/-!
Verification of the mavfwd telemetry bridge (src/mavfwd.c).

The development shallowly embeds the core of the program: the streaming
packet framer (`get_mavlink_packet`, `until_first_fe`), the aggregation /
flush engine of `process_mavlink` (modelled per input byte as
`process_mavlink_byte`), the RC debounce state machine (`ProcessChannels`),
the inbound-UDP fast path (`in_read` / `dump_mavlink_packet`) and the
telemetry injection performed right after a flush (`after_flush` with
`Check4MavlinkMsg`, `SendWfbLogToGround`, `SendTempToGround`).

Machine integers are modelled as `Nat`/`Int`: every quantity involved
(buffer offsets ≤ 2048, packet counters, millisecond timestamps, RC channel
values < 2¹⁶) stays far below the wrapping bounds of the corresponding C
types on the target, so no modular reduction is needed.  External inputs
(serial bytes, the files read by the telemetry producers, the clock, the
result of the MAVLink library parser which is not part of the repository)
are passed in explicitly as oracle arguments.
-/

/-! ### Constants from the source -/

/-- RC_CHANNELS (#65), mavfwd.c line 36. -/
def RC_CHANNELS : Nat := 65

/-- RC_CHANNELS_RAW (#35), mavfwd.c line 38. -/
def RC_CHANNELS_RAW : Nat := 35

/-- MAVLINK_MSG_ID_ATTITUDE (#30), from the MAVLink common dialect used at
mavfwd.c line 602. -/
def MAVLINK_MSG_ID_ATTITUDE : Nat := 30

/-- MAX_BUFFER_SIZE (mavfwd.c line 235): bytes read from the operator
message file. -/
def MAX_BUFFER_SIZE : Nat := 50

/-- Size of the backing array `unsigned char mavbuf[2048]` (line 552). -/
def MAVBUF_CAPACITY : Nat := 2048

/-- Modelled from the spec: MAVLINK_MAX_PACKET_LEN of the MAVLink library
(not part of the repository); `mavlink_msg_to_send_buffer` never returns
more than this many bytes. -/
def MAVLINK_MAX_PACKET_LEN : Nat := 280

/-! ### Framer: `get_mavlink_packet` (lines 206-223) and
`until_first_fe` (lines 226-233) -/

/-- `get_mavlink_packet` (mavfwd.c lines 206-223).  The buffer is the list
of bytes available; the result is the C `bool` return value ("a complete
packet is present") together with the value written through the
`packet_len` out-parameter (`none` when the function returns before
computing it, i.e. when fewer than 6 header bytes are available). -/
def get_mavlink_packet (in_buffer : List Nat) : Bool × Option Nat :=
  if in_buffer.length < 6 then (false, none)
  else
    let msg_len := in_buffer.getD 1 0
    let packet_len :=
      if in_buffer.getD 0 0 = 0xFE then 6 + msg_len + 2 else 10 + msg_len + 2
    if in_buffer.length < packet_len then (false, some packet_len)
    else (true, some packet_len)

/-- `until_first_fe` (mavfwd.c lines 226-233): number of bytes before the
first 0xFE/0xFD marker at position ≥ 1, or the full length. -/
def until_first_fe (data : List Nat) : Nat :=
  go data 1
where
  go (l : List Nat) (i : Nat) : Nat :=
    match h : l.drop i with
    | [] => l.length
    | b :: _ =>
      if b = 0xFE ∨ b = 0xFD then i else go l (i + 1)
  termination_by l.length - i
  decreasing_by
    have : i < l.length := by
      by_contra hge
      rw [List.drop_eq_nil_of_le (by omega)] at h
      exact absurd h (by simp)
    omega

/-! ### Aggregation engine: `process_mavlink` (lines 556-630)

The per-byte loop body is `process_mavlink_byte`.  The call to the MAVLink
library incremental parser `mavlink_parse_char` (library code, not in the
repository) is modelled by the oracle field `parsed` of a `ByteEvent`:
`some msgid` when the parser returns 1 having completed a message with that
message id, `none` otherwise.  The bytes that `SendTempToGround` would
deposit into the emptied buffer after a flush (lines 619-621) are the
oracle field `inject` (empty when the temperature path writes nothing).
The RC / heartbeat dispatch inside the loop mutates only state that is
disjoint from the aggregation state; it is modelled separately by
`ProcessChannels` below. -/

/-- Aggregation state: the pending-buffer contents
`mavbuf[0 .. mavbuff_offset)` (so `mavbuf.length` is `mavbuff_offset`,
lines 552-553) and the packet counter `mavpckts_count` (line 554). -/
structure AggState where
  mavbuf : List Nat
  mavpckts_count : Nat
  deriving DecidableEq, Repr

/-- One inbound serial byte together with the environment's response. -/
structure ByteEvent where
  byte : Nat
  parsed : Option Nat
  inject : List Nat
  deriving DecidableEq, Repr

/-- The overflow guard at the top of the loop body (lines 560-563): when
`mavbuff_offset > 2000` the offset is reset to 0 (the accumulated bytes are
abandoned) and the diagnostic `"Mavlink buffer overflowed! Packed lost!"`
is printed; the boolean records whether the diagnostic fired. -/
def overflow_guard (st : AggState) : AggState × Bool :=
  if 2000 < st.mavbuf.length then ({ st with mavbuf := [] }, true)
  else (st, false)

/-- The flush predicate of lines 597-602, evaluated after
`mavpckts_count++`: count-based mode for `1 ≤ aggregate < 50`, byte-based
mode for `50 < aggregate < 2000`, and the attitude override once at least
3 packets are pending. -/
def flush_condition (aggregate : Int) (cnt off : Nat) (msgid : Nat) : Bool :=
  (decide (1 ≤ aggregate) && decide (aggregate < 50) && decide (aggregate ≤ (cnt : Int))) ||
  (decide (50 < aggregate) && decide (aggregate < 2000) && decide (aggregate ≤ (off : Int))) ||
  (decide (3 ≤ cnt) && decide (msgid = MAVLINK_MSG_ID_ATTITUDE))

/-- Loop body of `process_mavlink` (lines 559-629) for one byte: overflow
guard, append of the byte at `mavbuff_offset`, and — when the parser
completes a message — the flush decision.  Result: new state, the datagram
sent by `sendto` at line 604 if a flush happened, and whether the overflow
diagnostic fired. -/
def process_mavlink_byte (aggregate : Int) (st : AggState) (ev : ByteEvent) :
    AggState × Option (List Nat) × Bool :=
  let g := overflow_guard st
  let st2 : AggState := { g.1 with mavbuf := g.1.mavbuf ++ [ev.byte] }
  match ev.parsed with
  | none => (st2, none, g.2)
  | some msgid =>
    let cnt := st2.mavpckts_count + 1
    if decide (0 < aggregate) && flush_condition aggregate cnt st2.mavbuf.length msgid then
      ({ mavbuf := ev.inject,
         mavpckts_count := if 0 < ev.inject.length then 1 else 0 },
       some st2.mavbuf, g.2)
    else ({ st2 with mavpckts_count := cnt }, none, g.2)

/-- Accumulated result of running `process_mavlink` over a byte sequence:
final aggregation state, the datagrams flushed to the UDP sink in order,
and how many times the overflow diagnostic fired. -/
structure RunOut where
  state : AggState
  flushed : List (List Nat)
  overflows : Nat
  deriving DecidableEq, Repr

/-- `process_mavlink` (lines 556-630) over a whole event sequence. -/
def process_mavlink (aggregate : Int) (st : AggState) :
    List ByteEvent → RunOut
  | [] => ⟨st, [], 0⟩
  | ev :: rest =>
    let s := process_mavlink_byte aggregate st ev
    let r := process_mavlink aggregate s.1 rest
    ⟨r.state, s.2.1.toList ++ r.flushed, (if s.2.2 then 1 else 0) + r.overflows⟩

/-! ### Serial read dispatch: `serial_read_cb` (lines 635-671) -/

/-- One iteration of the `serial_read_cb` loop (lines 640-670) for a chunk
`data`: the raw datagram sent at line 656 when `aggregate == 0`, and
whether `process_mavlink` is invoked (line 665: `aggregate > 0 ||
ch_count > 0`). -/
def serial_read_cb (aggregate : Int) (ch_count : Nat) (data : List Nat) :
    Option (List Nat) × Bool :=
  (if aggregate = 0 then some data else none,
   decide (0 < aggregate) || decide (0 < ch_count))

/-- The clamp applied to the `-a` option in `main` (lines 945-947):
values above 2000 become 2000. -/
def clamp_aggregate (a : Int) : Int :=
  if 2000 < a then 2000 else a

/-! ### Inbound UDP path: `dump_mavlink_packet` (lines 159-196) and
`in_read` (lines 692-708) -/

/-- The header fields read by `dump_mavlink_packet` (lines 165-175): the
message id sits at offset 5 for a 0xFE (v1) header and at offset 7 for a
0xFD (v2) header.  (In C, `msg_id` is left uninitialized for any other
first byte; theorems about this path therefore assume a marker byte.) -/
def mav_msg_id (data : List Nat) : Nat :=
  if data.getD 0 0 = 0xFE then data.getD 5 0
  else if data.getD 0 0 = 0xFD then data.getD 7 0
  else 0

/-- The channel value read at loop index `i` of `dump_mavlink_packet`
(line 184): `data[18 + 2i] | (data[19 + 2i] << 8)`. -/
def mav_chan_val (data : List Nat) (i : Nat) : Nat :=
  data.getD (18 + 2 * i) 0 ||| (data.getD (19 + 2 * i) 0 <<< 8)

/-- The `for` loop of `dump_mavlink_packet` (lines 183-194), iterating
over channel indices `i, i+1, ...` for `n` steps over the persistent
`ch[]` array: whenever the decoded value differs from `ch[i]`, `ch[i]` is
updated and `channels.sh (i+5) val` is launched via `system`.  Returns the
updated array and the launched commands (argument pairs) in order. -/
def rc_loop (data : List Nat) (ch : List Nat) (i : Nat) :
    Nat → List Nat × List (Nat × Nat)
  | 0 => (ch, [])
  | n + 1 =>
    let val := mav_chan_val data i
    if ch.getD i 0 ≠ val then
      let r := rc_loop data (ch.set i val) (i + 1) n
      (r.1, (i + 5, val) :: r.2)
    else rc_loop data ch (i + 1) n

/-- `dump_mavlink_packet` (lines 159-196), restricted to its effect on the
`ch[]` array and the `system("channels.sh ...")` invocations: when the
message id is RC_CHANNELS (65) or RC_CHANNELS_RAW (35) and `ch_count > 0`,
the first `ch_count` channels are compared and acted upon. -/
def dump_mavlink_packet (data : List Nat) (ch_count : Nat) (ch : List Nat) :
    List Nat × List (Nat × Nat) :=
  if (mav_msg_id data = RC_CHANNELS ∨ mav_msg_id data = RC_CHANNELS_RAW) ∧ 0 < ch_count then
    rc_loop data ch 0 ch_count
  else (ch, [])

/-- `in_read` (lines 692-708), after a successful `recvfrom` of `nread`
bytes: datagrams longer than 6 bytes are dumped (possibly firing
`channels.sh` commands) and written to the serial sink; shorter ones are
dropped.  Returns the updated `ch[]`, the commands fired, and whether the
datagram was written to the serial port. -/
def in_read (nread : Int) (data : List Nat) (ch_count : Nat) (ch : List Nat) :
    List Nat × List (Nat × Nat) × Bool :=
  if 6 < nread then
    let r := dump_mavlink_packet data ch_count ch
    (r.1, r.2, true)
  else (ch, [], false)

/-! ### RC Debounce Engine: `ProcessChannels` (lines 473-517) -/

/-- Debounce state (lines 466-470): `LastStart` (time of the last command
start), `LastValue` (last committed value), `NewValue` / `NewValueStart`
(current candidate and when it appeared), `ChannelCmds` (commands-issued
counter). -/
structure RCState where
  LastStart : Nat
  LastValue : Nat
  NewValue : Nat
  NewValueStart : Nat
  ChannelCmds : Nat
  deriving DecidableEq, Repr

/-- `ProcessChannels` (lines 473-517).  Arguments: the monitored channel
index `ch_count` (1-based), the configured rate limit `wait_after_bash`
and persistence period `ChannelPersistPeriodmMS` (milliseconds), the
current time, the decoded channel array and the debounce state.  Returns
the new state and `some (ch_count, val)` exactly when the external command
`/usr/bin/channels.sh ch_count val` is executed (line 513). -/
def ProcessChannels (ch_count : Nat) (wait_after_bash ChannelPersistPeriodmMS : Int)
    (now : Nat) (channels : List Nat) (st : RCState) :
    RCState × Option (Nat × Nat) :=
  if ch_count < 1 ∨ 16 < ch_count then (st, none)
  else if (Int.natAbs ((now : Int) - (st.LastStart : Int)) : Int) < wait_after_bash then
    (st, none)
  else
    let val := channels.getD (ch_count - 1) 0
    if 32 < Int.natAbs ((val : Int) - (st.NewValue : Int)) ∧ 0 < ChannelPersistPeriodmMS then
      ({ st with NewValue := val, NewValueStart := now }, none)
    else if (Int.natAbs ((now : Int) - (st.NewValueStart : Int)) : Int) <
        ChannelPersistPeriodmMS then
      (st, none)
    else if Int.natAbs ((val : Int) - (st.LastValue : Int)) < 32 then
      (st, none)
    else
      ({ st with NewValue := val, LastValue := val, LastStart := now,
                 ChannelCmds := st.ChannelCmds + 1 },
       if 0 < st.ChannelCmds then some (ch_count, val) else none)

/-! ### Telemetry producers (lines 240-398) and the flush aftermath
(lines 613-625)

File contents are external input: the operator inbox file is an
`Option (List Char)` (`none` when `fopen` fails), the wfb log an
`Option (List (List Char))` of its lines.  The clock is the explicit
`now` argument (milliseconds).  MAVLink packing of the two status-text
messages (`mavlink_msg_statustext_pack_chan`, library code not in the
repository) is abstracted by the `GroundMsg` datatype carrying the message
content; what matters for the claims is which sink each message reaches. -/

/-- `Check4MavlinkMsg` (lines 240-259): read up to MAX_BUFFER_SIZE bytes of
the operator message file; a missing file or an empty file yields no
message, otherwise the (truncated) contents are the message and the file
is deleted.  Note: no clock is consulted — this producer has no rate
limit. -/
def Check4MavlinkMsg (file : Option (List Char)) : Option (List Char) :=
  match file with
  | none => none
  | some s => if 0 < s.length then some (s.take MAX_BUFFER_SIZE) else none

/-- C `atoi` on a token that starts with a digit: read the leading run of
digits. -/
def atoi_digits : List Char → Nat → Nat
  | [], acc => acc
  | c :: rest, acc =>
    if c.isDigit then atoi_digits rest (acc * 10 + (c.toNat - 48)) else acc

/-- `strtok(buff, " ")` iteration (lines 301-310): the space-separated
tokens of a line, runs of spaces collapsed. -/
def tok_split : List Char → List Char → List (List Char)
  | [], cur => if cur.isEmpty then [] else [cur.reverse]
  | c :: rest, cur =>
    if c = ' ' then
      if cur.isEmpty then tok_split rest []
      else cur.reverse :: tok_split rest []
    else tok_split rest (c :: cur)

/-- `strstr(hay, pat) != NULL`: `pat` occurs contiguously in `hay`. -/
def strstr (hay pat : List Char) : Bool :=
  match hay with
  | [] => pat.isEmpty
  | c :: rest => pat.isPrefixOf (c :: rest) || strstr rest pat

/-- The token scan of lines 301-310: the first token whose first character
is a digit contributes its `atoi` value; otherwise the line contributes
nothing. -/
def line_dropped (l : List Char) : Nat :=
  match (tok_split l []).find? (fun t =>
      match t with
      | [] => false
      | c :: _ => c.isDigit) with
  | some t => atoi_digits t 0
  | none => 0

/-- The `fgets` loop of `SendWfbLogToGround` (lines 292-312): accumulate
dropped-packet counts from lines containing "packets dropped"; after more
than 31 lines the total saturates to the 9999 sentinel.  Returns the total
and the number of lines consumed (`maxlinestoparse`). -/
def parse_wfb : List (List Char) → Nat → Nat → Nat × Nat
  | [], cnt, total => (total, cnt)
  | l :: rest, cnt, total =>
    if 30 < cnt then (9999, cnt + 1)
    else
      let total2 :=
        if strstr l ("packets dropped".toList) then total + line_dropped l
        else total
      parse_wfb rest (cnt + 1) total2

/-- `SendWfbLogToGround` (lines 263-331), as a function of the monitoring
flag, the clock, the `LastWfbSent` timestamp and the log file's lines.
Returns the new `LastWfbSent` and `some total` exactly when a report
message is sent to the ground (line 328).  The timestamp is updated before
the file is read, so a missing or empty file still consumes the 1-second
budget — faithful to the source order. -/
def SendWfbLogToGround (monitor_wfb : Bool) (now LastWfbSent : Nat)
    (wfb_file : Option (List (List Char))) : Nat × Option Nat :=
  if !monitor_wfb then (LastWfbSent, none)
  else if (Int.natAbs ((now : Int) - (LastWfbSent : Int)) : Int) < 1000 then
    (LastWfbSent, none)
  else
    match wfb_file with
    | none => (now, none)
    | some lines =>
      let p := parse_wfb lines 0 0
      if p.2 = 0 ∧ p.1 = 0 then (now, none)
      else (now, some p.1)

/-- Modelled from the spec: `mavlink_msg_raw_imu_pack_chan` followed by
`mavlink_msg_to_send_buffer` (MAVLink library, not in the repository)
produce one nonempty RAW_IMU packet whose temperature field carries the
value scaled by 100; abstracted here as a v2 marker, the RAW_IMU payload
length and the scaled value reduced to a byte. -/
def raw_imu_pack (temp100 : Int) : List Nat :=
  [0xFD, 29, temp100.natAbs % 256]

/-- `SendTempToGround` (lines 382-398): rate-limited to once per second via
`LastTempSent`; in SigmaStar mode (`temp == 2`) the sensor is re-read (the
`sensor` oracle), then a RAW_IMU packet carrying `last_board_temp * 100` is
written into the supplied buffer.  Returns the new `LastTempSent`, the new
`last_board_temp` and the bytes written at offset 0 of `mavbuf` (empty when
rate-limited, in which case the C function returns length 0). -/
def SendTempToGround (now LastTempSent : Nat) (temp_mode : Nat) (sensor : Int)
    (last_board_temp : Int) : Nat × Int × List Nat :=
  if (Int.natAbs ((now : Int) - (LastTempSent : Int)) : Int) < 1000 then
    (LastTempSent, last_board_temp, [])
  else
    let lbt := if temp_mode = 2 then sensor else last_board_temp
    (now, lbt, raw_imu_pack (lbt * 100))

/-- A synthetic telemetry datagram sent to the ground station. -/
inductive GroundMsg where
  | info (msg : List Char)
  | wfbReport (total : Nat)
  deriving DecidableEq, Repr

/-- `send_msg_to_groundstation` (lines 149-157): the text is packed as a
STATUSTEXT MAVLink packet and passed straight to `sendto` on the UDP
socket — it is sent immediately as its own datagram and never touches the
pending buffer `mavbuf`. -/
def send_msg_to_groundstation (msg : GroundMsg) (sent : List GroundMsg) :
    List GroundMsg :=
  sent ++ [msg]

/-- Ground-telemetry state shared by the producers: `LastWfbSent`
(line 43), `LastTempSent` (line 380) and `last_board_temp` (line 348,
a float in C, here an integer temperature; `-100` is the "unavailable"
sentinel). -/
structure GroundState where
  LastWfbSent : Nat
  LastTempSent : Nat
  last_board_temp : Int
  deriving DecidableEq, Repr

/-- Observable outcome of the post-flush telemetry block. -/
structure FlushTelemetry where
  gs : GroundState
  directs : List GroundMsg
  pending : List Nat
  mavpckts_count : Nat
  deriving DecidableEq, Repr

/-- The flush aftermath of `process_mavlink` (lines 613-625): after the
datagram is sent and the counters reset, `SendInfoToGround` (lines 333-341,
via `Check4MavlinkMsg`) and `SendWfbLogToGround` send their messages
directly with `send_msg_to_groundstation`, then — when a board temperature
is known — `SendTempToGround` writes a packet into the emptied pending
buffer and the packet counter becomes 1 when it wrote anything. -/
def after_flush (now : Nat) (gs : GroundState) (inbox : Option (List Char))
    (monitor_wfb : Bool) (wfb_file : Option (List (List Char)))
    (temp_mode : Nat) (sensor : Int) : FlushTelemetry :=
  let d1 : List GroundMsg :=
    match Check4MavlinkMsg inbox with
    | some m => send_msg_to_groundstation (.info m) []
    | none => []
  let w := SendWfbLogToGround monitor_wfb now gs.LastWfbSent wfb_file
  let d2 : List GroundMsg :=
    match w.2 with
    | some t => send_msg_to_groundstation (.wfbReport t) d1
    | none => d1
  let t :=
    if -100 < gs.last_board_temp then
      SendTempToGround now gs.LastTempSent temp_mode sensor gs.last_board_temp
    else (gs.LastTempSent, gs.last_board_temp, ([] : List Nat))
  { gs := ⟨w.1, t.1, t.2.1⟩, directs := d2, pending := t.2.2,
    mavpckts_count := if 0 < t.2.2.length then 1 else 0 }

/-! ### Shared helper lemmas -/

/-- The overflow guard never changes the packet counter. -/
theorem overflow_guard_count (st : AggState) :
    (overflow_guard st).1.mavpckts_count = st.mavpckts_count := by
  unfold overflow_guard
  by_cases h : 2000 < st.mavbuf.length
  · rw [if_pos h]
  · rw [if_neg h]

/-- After the overflow guard the buffer holds at most 2000 bytes, so the
subsequent store `mavbuf[mavbuff_offset] = buffer[i]` writes at an index
≤ 2000, strictly inside the 2048-byte array. -/
theorem overflow_guard_length_le (st : AggState) :
    (overflow_guard st).1.mavbuf.length ≤ 2000 := by
  unfold overflow_guard
  by_cases h : 2000 < st.mavbuf.length
  · rw [if_pos h]; simp
  · rw [if_neg h]
    show st.mavbuf.length ≤ 2000
    omega

/-! ### Claim C2 -/

/-- Claim C2 (confirmed): on the aggregation path the pending buffer never
exceeds its capacity.  The write index of the single-byte append — the
buffer length right after the overflow guard — is at most 2000, strictly
below the 2048-byte backing array, and after the append (and a possible
flush with its telemetry injection, which writes at most one MAVLink
packet) the length is at most 2001. -/
theorem C2_no_buffer_overflow (aggregate : Int) (st : AggState) (ev : ByteEvent)
    (h : ev.inject.length ≤ MAVLINK_MAX_PACKET_LEN) :
    (overflow_guard st).1.mavbuf.length ≤ 2000 ∧
    (overflow_guard st).1.mavbuf.length < MAVBUF_CAPACITY ∧
    (process_mavlink_byte aggregate st ev).1.mavbuf.length ≤ 2001 := by
  have hg := overflow_guard_length_le st
  refine ⟨hg, by unfold MAVBUF_CAPACITY; omega, ?_⟩
  unfold process_mavlink_byte
  cases hp : ev.parsed with
  | none => simpa using hg
  | some msgid =>
    by_cases hf : (decide (0 < aggregate) &&
        flush_condition aggregate ((overflow_guard st).1.mavpckts_count + 1)
          ((overflow_guard st).1.mavbuf ++ [ev.byte]).length msgid) = true
    · simp only [hf, if_true]
      unfold MAVLINK_MAX_PACKET_LEN at h
      omega
    · simp only [Bool.not_eq_true] at hf
      simp only [hf, Bool.false_eq_true, if_false]
      simpa using hg

/-- Witness for C2 at a concrete state and event. -/
theorem C2_no_buffer_overflow_witness :
    ([(9 : Nat)].length ≤ MAVLINK_MAX_PACKET_LEN) ∧
    ((overflow_guard ⟨[1, 2, 3], 0⟩).1.mavbuf.length ≤ 2000 ∧
     (overflow_guard ⟨[1, 2, 3], 0⟩).1.mavbuf.length < MAVBUF_CAPACITY ∧
     (process_mavlink_byte 1 ⟨[1, 2, 3], 0⟩ ⟨4, some 0, [9]⟩).1.mavbuf.length ≤ 2001) :=
  ⟨by decide, C2_no_buffer_overflow 1 ⟨[1, 2, 3], 0⟩ ⟨4, some 0, [9]⟩ (by decide)⟩

/-! ### Claim C8 -/

/-- Claim C8 (confirmed): for any positive aggregation policy, once at
least 3 packets have accumulated since the last flush, a completed
attitude message (id 30) forces an immediate flush, regardless of the
count or byte threshold. -/
theorem C8_attitude_override (aggregate : Int) (st : AggState) (ev : ByteEvent)
    (h1 : 0 < aggregate) (h2 : 3 ≤ st.mavpckts_count)
    (h3 : ev.parsed = some MAVLINK_MSG_ID_ATTITUDE) :
    ((process_mavlink_byte aggregate st ev).2.1).isSome = true := by
  unfold process_mavlink_byte
  rw [h3]
  have hc : flush_condition aggregate ((overflow_guard st).1.mavpckts_count + 1)
      ((overflow_guard st).1.mavbuf ++ [ev.byte]).length MAVLINK_MSG_ID_ATTITUDE = true := by
    unfold flush_condition
    rw [overflow_guard_count]
    simp only [Bool.or_eq_true, Bool.and_eq_true, decide_eq_true_eq, and_true]
    omega
  simp only [hc, decide_eq_true h1, Bool.and_self, if_true, Option.isSome_some]

/-- Witness for C8: `aggregate = 2000` (byte threshold far from met), 3
packets pending, an attitude packet arrives → a datagram is flushed. -/
theorem C8_attitude_override_witness :
    ((0 : Int) < 2000) ∧ (3 ≤ (AggState.mk [1] 3).mavpckts_count) ∧
    ((process_mavlink_byte 2000 ⟨[1], 3⟩ ⟨9, some MAVLINK_MSG_ID_ATTITUDE, []⟩).2.1).isSome = true :=
  ⟨by decide, by decide,
   C8_attitude_override 2000 ⟨[1], 3⟩ ⟨9, some MAVLINK_MSG_ID_ATTITUDE, []⟩
     (by decide) (by decide) rfl⟩

/-! ### Claim C9 -/

/-- Claim C9 (confirmed): for a buffer headed by a start marker the framer
computes the total packet length as `6 + payload + 2` for 0xFE (v1) and
`10 + payload + 2` for 0xFD (v2), with the payload length taken from the
second byte; it reports a complete packet exactly when at least that many
bytes are buffered, and any buffer shorter than the 6-byte header is
reported incomplete without a length being produced. -/
theorem C9_framer_packet_length (buf : List Nat)
    (h : buf.getD 0 0 = 0xFE ∨ buf.getD 0 0 = 0xFD) :
    (6 ≤ buf.length →
      get_mavlink_packet buf =
        (decide ((if buf.getD 0 0 = 0xFE then 6 + buf.getD 1 0 + 2
                  else 10 + buf.getD 1 0 + 2) ≤ buf.length),
         some (if buf.getD 0 0 = 0xFE then 6 + buf.getD 1 0 + 2
               else 10 + buf.getD 1 0 + 2))) ∧
    (buf.length < 6 → get_mavlink_packet buf = (false, none)) := by
  constructor
  · intro h6
    unfold get_mavlink_packet
    rw [if_neg (by omega)]
    by_cases hlt : buf.length <
        (if buf.getD 0 0 = 0xFE then 6 + buf.getD 1 0 + 2 else 10 + buf.getD 1 0 + 2)
    · rw [if_pos hlt, decide_eq_false (by omega)]
    · rw [if_neg hlt, decide_eq_true (by omega)]
  · intro hlt
    unfold get_mavlink_packet
    rw [if_pos hlt]

/-- Witness for C9: a complete v1 packet with payload length 1 (9 bytes)
and the marker hypothesis discharged. -/
theorem C9_framer_packet_length_witness :
    (([0xFE, 1, 0, 0, 0, 0, 0, 0, 0] : List Nat).getD 0 0 = 0xFE ∨
     ([0xFE, 1, 0, 0, 0, 0, 0, 0, 0] : List Nat).getD 0 0 = 0xFD) ∧
    ((6 ≤ ([0xFE, 1, 0, 0, 0, 0, 0, 0, 0] : List Nat).length →
      get_mavlink_packet [0xFE, 1, 0, 0, 0, 0, 0, 0, 0] =
        (decide ((if ([0xFE, 1, 0, 0, 0, 0, 0, 0, 0] : List Nat).getD 0 0 = 0xFE
                  then 6 + ([0xFE, 1, 0, 0, 0, 0, 0, 0, 0] : List Nat).getD 1 0 + 2
                  else 10 + ([0xFE, 1, 0, 0, 0, 0, 0, 0, 0] : List Nat).getD 1 0 + 2) ≤
                 ([0xFE, 1, 0, 0, 0, 0, 0, 0, 0] : List Nat).length),
         some (if ([0xFE, 1, 0, 0, 0, 0, 0, 0, 0] : List Nat).getD 0 0 = 0xFE
               then 6 + ([0xFE, 1, 0, 0, 0, 0, 0, 0, 0] : List Nat).getD 1 0 + 2
               else 10 + ([0xFE, 1, 0, 0, 0, 0, 0, 0, 0] : List Nat).getD 1 0 + 2))) ∧
     (([0xFE, 1, 0, 0, 0, 0, 0, 0, 0] : List Nat).length < 6 →
      get_mavlink_packet [0xFE, 1, 0, 0, 0, 0, 0, 0, 0] = (false, none))) :=
  ⟨by decide, C9_framer_packet_length [0xFE, 1, 0, 0, 0, 0, 0, 0, 0] (by decide)⟩

/-! ### Claim C7 -/

/-- Claim C7 (confirmed): when `ProcessChannels` reaches a commit (all
guards passed: monitoring enabled, rate limit elapsed, candidate persisted,
change significant), the commands-issued counter is incremented and the
committed value recorded; the very first would-be commit
(`ChannelCmds = 0`) does not execute the external command, while every
subsequent commit executes it with arguments `(ch_count, val)`. -/
theorem C7_first_commit_suppressed (ch_count : Nat) (wait persist : Int)
    (now : Nat) (channels : List Nat) (st : RCState)
    (h1 : 1 ≤ ch_count) (h2 : ch_count ≤ 16)
    (h3 : ¬ ((Int.natAbs ((now : Int) - (st.LastStart : Int)) : Int) < wait))
    (h4 : ¬ (32 < Int.natAbs ((channels.getD (ch_count - 1) 0 : Int) - (st.NewValue : Int)) ∧
             0 < persist))
    (h5 : ¬ ((Int.natAbs ((now : Int) - (st.NewValueStart : Int)) : Int) < persist))
    (h6 : ¬ (Int.natAbs ((channels.getD (ch_count - 1) 0 : Int) - (st.LastValue : Int)) < 32)) :
    (ProcessChannels ch_count wait persist now channels st).1.ChannelCmds =
      st.ChannelCmds + 1 ∧
    (ProcessChannels ch_count wait persist now channels st).1.LastValue =
      channels.getD (ch_count - 1) 0 ∧
    (st.ChannelCmds = 0 →
      (ProcessChannels ch_count wait persist now channels st).2 = none) ∧
    (0 < st.ChannelCmds →
      (ProcessChannels ch_count wait persist now channels st).2 =
        some (ch_count, channels.getD (ch_count - 1) 0)) := by
  unfold ProcessChannels
  rw [if_neg (by omega), if_neg h3]
  simp only []
  rw [if_neg h4, if_neg h5, if_neg h6]
  refine ⟨rfl, rfl, fun h0 => ?_, fun h0 => ?_⟩
  · simp only [if_neg (by omega : ¬ 0 < st.ChannelCmds)]
  · simp only [if_pos h0]

/-- Witness for C7: two applications — one from the initial state
(`ChannelCmds = 0`, command suppressed but counted), one from a later
state (`ChannelCmds = 1`, command executed with `(3, 600)`). -/
theorem C7_first_commit_suppressed_witness :
    ((ProcessChannels 3 0 500 600 [0, 0, 600] ⟨0, 100, 600, 0, 0⟩).1.ChannelCmds = 1 ∧
     (ProcessChannels 3 0 500 600 [0, 0, 600] ⟨0, 100, 600, 0, 0⟩).2 = none) ∧
    ((ProcessChannels 3 0 500 600 [0, 0, 600] ⟨0, 100, 600, 0, 1⟩).1.ChannelCmds = 2 ∧
     (ProcessChannels 3 0 500 600 [0, 0, 600] ⟨0, 100, 600, 0, 1⟩).2 = some (3, 600)) := by
  constructor
  · obtain ⟨a, _, c, _⟩ := C7_first_commit_suppressed 3 0 500 600 [0, 0, 600]
      ⟨0, 100, 600, 0, 0⟩ (by decide) (by decide) (by decide) (by decide) (by decide) (by decide)
    exact ⟨a, c rfl⟩
  · obtain ⟨a, _, _, d⟩ := C7_first_commit_suppressed 3 0 500 600 [0, 0, 600]
      ⟨0, 100, 600, 0, 1⟩ (by decide) (by decide) (by decide) (by decide) (by decide) (by decide)
    exact ⟨a, d (by decide)⟩

/-! ### Claim C10 -/

/-- Writing `ch[i]` does not disturb later-read entries `ch[j]`, `j > i`. -/
theorem getD_set_lt (l : List Nat) (i j v d : Nat) (h : i < j) :
    (l.set i v).getD j d = l.getD j d := by
  rw [List.getD_eq_getElem?_getD, List.getD_eq_getElem?_getD,
    List.getElem?_set_ne (by omega : i ≠ j)]

/-- The commands fired by the `dump_mavlink_packet` channel loop: one
`channels.sh (i+5) val` per index whose decoded value differs from the
stored `ch[i]`, each compared against the value stored before the loop
(each index is written at most once, after its comparison). -/
theorem rc_loop_cmds (data : List Nat) :
    ∀ (n : Nat) (ch : List Nat) (i : Nat),
    (rc_loop data ch i n).2 =
      (List.range n).filterMap (fun j =>
        if ch.getD (i + j) 0 ≠ mav_chan_val data (i + j) then
          some (i + j + 5, mav_chan_val data (i + j))
        else none) := by
  intro n
  induction n with
  | zero => intro ch i; simp [rc_loop]
  | succ m ih =>
    intro ch i
    rw [List.range_succ_eq_map]
    unfold rc_loop
    by_cases hne : ch.getD i 0 ≠ mav_chan_val data i
    · simp only [if_pos hne]
      rw [ih (ch.set i (mav_chan_val data i)) (i + 1)]
      simp only [List.filterMap_cons, Nat.add_zero, if_pos hne, List.filterMap_map]
      congr 1
      apply List.filterMap_congr
      intro j _
      have hgd : (ch.set i (mav_chan_val data i)).getD (i + 1 + j) 0 =
          ch.getD (i + 1 + j) 0 := getD_set_lt ch i (i + 1 + j) _ 0 (by omega)
      simp only [Function.comp_apply, hgd]
      have harith : i + (j + 1) = i + 1 + j := by omega
      rw [harith]
    · simp only [if_neg hne]
      rw [ih ch (i + 1)]
      simp only [List.filterMap_cons, Nat.add_zero, if_neg hne, List.filterMap_map]
      apply List.filterMap_congr
      intro j _
      simp only [Function.comp_apply]
      have harith : i + (j + 1) = i + 1 + j := by omega
      rw [harith]

/-- Claim C10 (confirmed): an inbound UDP datagram longer than 6 bytes,
headed by a MAVLink marker and whose message-id field is RC_CHANNELS (65)
or RC_CHANNELS_RAW (35), immediately fires `channels.sh (i+5) val` once
for each of the first `ch_count` channels whose decoded value differs from
the stored one — the debounce state (`RCState`), persistence period,
32-unit threshold and first-command suppression play no part on this
path. -/
theorem C10_inbound_rc_bypass (nread : Int) (data ch : List Nat) (ch_count : Nat)
    (h1 : 6 < nread)
    (h2 : data.getD 0 0 = 0xFE ∨ data.getD 0 0 = 0xFD)
    (h3 : mav_msg_id data = RC_CHANNELS ∨ mav_msg_id data = RC_CHANNELS_RAW)
    (h4 : 0 < ch_count) :
    (in_read nread data ch_count ch).2.1 =
      (List.range ch_count).filterMap (fun i =>
        if ch.getD i 0 ≠ mav_chan_val data i then
          some (i + 5, mav_chan_val data i)
        else none) := by
  unfold in_read
  rw [if_pos h1]
  unfold dump_mavlink_packet
  rw [if_pos ⟨h3, h4⟩]
  have := rc_loop_cmds data ch_count ch 0
  simpa using this

/-- Witness for C10: a v1 datagram with message id 65 carrying value 1000
for channel 1 while `ch[0] = 0` fires exactly `channels.sh 5 1000`. -/
theorem C10_inbound_rc_bypass_witness :
    ((6 : Int) < 20) ∧
    (([0xFE, 0, 0, 0, 0, 65, 0, 0, 0, 0, 0, 0, 0, 0, 0, 0, 0, 0, 0xE8, 0x03] : List Nat).getD 0 0
        = 0xFE ∨
     ([0xFE, 0, 0, 0, 0, 65, 0, 0, 0, 0, 0, 0, 0, 0, 0, 0, 0, 0, 0xE8, 0x03] : List Nat).getD 0 0
        = 0xFD) ∧
    (in_read 20 [0xFE, 0, 0, 0, 0, 65, 0, 0, 0, 0, 0, 0, 0, 0, 0, 0, 0, 0, 0xE8, 0x03] 1 [0]).2.1 =
      (List.range 1).filterMap (fun i =>
        if ([0] : List Nat).getD i 0 ≠
            mav_chan_val [0xFE, 0, 0, 0, 0, 65, 0, 0, 0, 0, 0, 0, 0, 0, 0, 0, 0, 0, 0xE8, 0x03] i
        then some (i + 5,
          mav_chan_val [0xFE, 0, 0, 0, 0, 65, 0, 0, 0, 0, 0, 0, 0, 0, 0, 0, 0, 0, 0xE8, 0x03] i)
        else none) :=
  ⟨by decide, by decide,
   C10_inbound_rc_bypass 20 [0xFE, 0, 0, 0, 0, 65, 0, 0, 0, 0, 0, 0, 0, 0, 0, 0, 0, 0, 0xE8, 0x03]
     [0] 1 (by decide) (by decide) (by decide) (by decide)⟩

/-! ### Claim C3 -/

/-- Counterexample to claim C3: with `aggregate = 0` but a monitored
channel configured (`ch_count = 1`), `serial_read_cb` still hands the
chunk to `process_mavlink` (line 665 tests `aggregate > 0 || ch_count >
0`), so serial input does reach the MAVLink parser — the claim's
"regardless of the configured monitored channel index" is false. -/
theorem C3_counterexample :
    (serial_read_cb 0 1 [0xFE]).2 = true ∧
    (serial_read_cb 0 1 [0xFE]).1 = some [0xFE] := by
  decide

/-- Claim C3 as amended: with `aggregate = 0` every read is forwarded
immediately and unmodified as one raw datagram, and no flush of the
pending buffer ever happens (the flush block requires `aggregate > 0`);
however the stream is still fed to the MAVLink parser (and hence to
RC-channel decoding) exactly when the monitored channel index is
positive. -/
theorem C3_raw_passthrough_amended (ch_count : Nat) (data : List Nat)
    (st : AggState) (ev : ByteEvent) :
    (serial_read_cb 0 ch_count data).1 = some data ∧
    (serial_read_cb 0 ch_count data).2 = decide (0 < ch_count) ∧
    (process_mavlink_byte 0 st ev).2.1 = none := by
  refine ⟨rfl, by simp [serial_read_cb], ?_⟩
  unfold process_mavlink_byte
  cases ev.parsed with
  | none => rfl
  | some msgid => simp

/-! ### Claim C4 -/

/-- A completed packet does not flush when the (post-increment) flush
predicate is false and no overflow reset intervened. -/
theorem process_mavlink_byte_no_flush (a : Int) (st : AggState) (ev : ByteEvent)
    (msgid : Nat) (hlen : st.mavbuf.length ≤ 2000) (hp : ev.parsed = some msgid)
    (hc : (decide (0 < a) && flush_condition a (st.mavpckts_count + 1)
            (st.mavbuf.length + 1) msgid) = false) :
    (process_mavlink_byte a st ev).2.1 = none := by
  have hg : ¬ 2000 < st.mavbuf.length := by omega
  simp only [process_mavlink_byte, overflow_guard, if_neg hg, hp, List.length_append,
    List.length_singleton, hc, Bool.false_eq_true, if_false]

/-- Counterexample to claim C4: the byte-mode test at line 601 is the
strict `aggregate > 50 && aggregate < 2000`, so the boundary values do not
flush when the byte threshold is reached.  With `aggregate = 50` and 49
pending bytes, the 50th byte completes a packet — the pending length
reaches the threshold — yet no flush occurs; likewise with
`aggregate = 2000` and 2000 pending bytes. -/
theorem C4_counterexample :
    ((process_mavlink_byte 50 ⟨List.replicate 49 0, 1⟩ ⟨0, some 0, []⟩).2.1 = none ∧
     (50 : Int) ≤ ((List.replicate 49 (0 : Nat)).length + 1 : Nat)) ∧
    ((process_mavlink_byte 2000 ⟨List.replicate 1999 0, 1⟩ ⟨0, some 0, []⟩).2.1 = none ∧
     (2000 : Int) ≤ ((List.replicate 1999 (0 : Nat)).length + 1 : Nat)) := by
  refine ⟨⟨?_, by norm_num⟩, ⟨?_, by norm_num⟩⟩
  · exact process_mavlink_byte_no_flush 50 ⟨List.replicate 49 0, 1⟩ ⟨0, some 0, []⟩ 0
      (by simp only [List.length_replicate]; decide) rfl
      (by simp only [List.length_replicate]; decide)
  · exact process_mavlink_byte_no_flush 2000 ⟨List.replicate 1999 0, 1⟩ ⟨0, some 0, []⟩ 0
      (by simp only [List.length_replicate]; decide) rfl
      (by simp only [List.length_replicate]; decide)

/-- Claim C4 as amended: byte-based batching holds exactly for
`50 < aggregate < 2000`: whenever a packet completes and the pending
length has reached `aggregate`, the accumulated bytes are flushed as one
datagram.  At the boundary values 50 and 2000 neither the count nor the
byte threshold applies — the flush predicate can only fire through the
attitude override. -/
theorem C4_byte_mode_amended (a : Int) (st : AggState) (ev : ByteEvent)
    (msgid cnt off m : Nat)
    (h1 : 50 < a) (h2 : a < 2000) (h3 : ev.parsed = some msgid)
    (h4 : st.mavbuf.length ≤ 2000) (h5 : a ≤ (st.mavbuf.length : Int) + 1) :
    (process_mavlink_byte a st ev).2.1 = some (st.mavbuf ++ [ev.byte]) ∧
    (flush_condition 50 cnt off m = true → 3 ≤ cnt ∧ m = MAVLINK_MSG_ID_ATTITUDE) ∧
    (flush_condition 2000 cnt off m = true → 3 ≤ cnt ∧ m = MAVLINK_MSG_ID_ATTITUDE) := by
  refine ⟨?_, ?_, ?_⟩
  · unfold process_mavlink_byte overflow_guard
    rw [if_neg (by omega : ¬ 2000 < st.mavbuf.length)]
    rw [h3]
    simp only []
    have hc : flush_condition a (st.mavpckts_count + 1) (st.mavbuf ++ [ev.byte]).length
        msgid = true := by
      unfold flush_condition MAVLINK_MSG_ID_ATTITUDE
      simp only [Bool.or_eq_true, Bool.and_eq_true, decide_eq_true_eq, List.length_append,
        List.length_singleton]
      omega
    rw [hc, decide_eq_true (by omega : (0 : Int) < a), Bool.and_self, if_pos rfl]
  · intro hf
    unfold flush_condition at hf
    unfold MAVLINK_MSG_ID_ATTITUDE at hf ⊢
    simp only [Bool.or_eq_true, Bool.and_eq_true, decide_eq_true_eq] at hf
    omega
  · intro hf
    unfold flush_condition at hf
    unfold MAVLINK_MSG_ID_ATTITUDE at hf ⊢
    simp only [Bool.or_eq_true, Bool.and_eq_true, decide_eq_true_eq] at hf
    omega

/-- Witness for the amended C4: `aggregate = 100` with 99 pending bytes
flushes on the packet-completing 100th byte. -/
theorem C4_byte_mode_amended_witness :
    ((50 : Int) < 100) ∧ ((100 : Int) < 2000) ∧
    ((process_mavlink_byte 100 ⟨List.replicate 99 7, 1⟩ ⟨8, some 0, []⟩).2.1 =
      some (List.replicate 99 7 ++ [8]) ∧
     (flush_condition 50 1 50 0 = true → 3 ≤ 1 ∧ 0 = MAVLINK_MSG_ID_ATTITUDE) ∧
     (flush_condition 2000 1 2000 0 = true → 3 ≤ 1 ∧ 0 = MAVLINK_MSG_ID_ATTITUDE)) :=
  ⟨by decide, by decide,
   C4_byte_mode_amended 100 ⟨List.replicate 99 7, 1⟩ ⟨8, some 0, []⟩ 0 1 50 0
     (by decide) (by decide) rfl (by simp) (by simp)⟩

/-! ### Claim C5 -/

/-- Counterexample to claim C5: after a flush with an operator message
pending in the inbox file, the message is packed and sent directly with
`sendto` (`send_msg_to_groundstation`, lines 149-157) as its own datagram
— it does not enter the pending buffer and does not ride inside the next
batched datagram, contradicting "never sent directly to the UDP sink". -/
theorem C5_counterexample :
    (after_flush 0 ⟨0, 0, -100⟩ (some ['h', 'i']) false none 0 0).directs =
      [GroundMsg.info ['h', 'i']] ∧
    (after_flush 0 ⟨0, 0, -100⟩ (some ['h', 'i']) false none 0 0).pending = [] := by
  constructor <;> rfl

/-- Claim C5 as amended: the operator-text and link-health messages are
sent immediately, each as its own UDP datagram, via
`send_msg_to_groundstation`; only the temperature message is written into
the pending buffer after a flush (and hence rides inside the next batched
datagram). -/
theorem C5_telemetry_sinks_amended (now : Nat) (gs : GroundState)
    (inbox : Option (List Char)) (monitor : Bool)
    (wfb_file : Option (List (List Char))) (tm : Nat) (sensor : Int)
    (m : List Char)
    (h : Check4MavlinkMsg inbox = some m) :
    GroundMsg.info m ∈ (after_flush now gs inbox monitor wfb_file tm sensor).directs ∧
    (∀ t, (SendWfbLogToGround monitor now gs.LastWfbSent wfb_file).2 = some t →
      GroundMsg.wfbReport t ∈ (after_flush now gs inbox monitor wfb_file tm sensor).directs) ∧
    (after_flush now gs inbox monitor wfb_file tm sensor).pending =
      (if -100 < gs.last_board_temp then
        (SendTempToGround now gs.LastTempSent tm sensor gs.last_board_temp).2.2
       else []) := by
  unfold after_flush send_msg_to_groundstation
  rw [h]
  refine ⟨?_, ?_, ?_⟩
  · cases hw : (SendWfbLogToGround monitor now gs.LastWfbSent wfb_file).2 with
    | none => simp [hw]
    | some t => simp [hw]
  · intro t hw
    simp [hw]
  · by_cases ht : -100 < gs.last_board_temp
    · rw [if_pos ht, if_pos ht]
    · rw [if_neg ht, if_neg ht]

/-- Witness for the amended C5: inbox `"hi"`, wfb monitoring off, no
temperature. -/
theorem C5_telemetry_sinks_amended_witness :
    (Check4MavlinkMsg (some ['h', 'i']) = some ['h', 'i']) ∧
    (GroundMsg.info ['h', 'i'] ∈
      (after_flush 0 ⟨0, 0, -100⟩ (some ['h', 'i']) false none 0 0).directs ∧
     (∀ t, (SendWfbLogToGround false 0 (GroundState.mk 0 0 (-100)).LastWfbSent none).2 = some t →
       GroundMsg.wfbReport t ∈
         (after_flush 0 ⟨0, 0, -100⟩ (some ['h', 'i']) false none 0 0).directs) ∧
     (after_flush 0 ⟨0, 0, -100⟩ (some ['h', 'i']) false none 0 0).pending =
       (if -100 < (GroundState.mk 0 0 (-100)).last_board_temp then
         (SendTempToGround 0 (GroundState.mk 0 0 (-100)).LastTempSent 0 0
           (GroundState.mk 0 0 (-100)).last_board_temp).2.2
        else [])) :=
  ⟨by decide,
   C5_telemetry_sinks_amended 0 ⟨0, 0, -100⟩ (some ['h', 'i']) false none 0 0
     ['h', 'i'] (by decide)⟩

/-! ### Claim C6 -/

/-- Counterexample to claim C6: the operator-message producer
(`Check4MavlinkMsg`, consulted by `SendInfoToGround` at every flush) has
no rate limit — two flushes 500 ms apart, each finding a message in the
inbox file, emit two operator messages inside one second. -/
theorem C6_counterexample :
    (after_flush 0 ⟨0, 0, -100⟩ (some ['a']) false none 0 0).directs =
      [GroundMsg.info ['a']] ∧
    (after_flush 500 (after_flush 0 ⟨0, 0, -100⟩ (some ['a']) false none 0 0).gs
        (some ['b']) false none 0 0).directs = [GroundMsg.info ['b']] := by
  constructor <;> rfl

/-- An emission by `SendWfbLogToGround` passes the 1-second gate and stamps
`LastWfbSent` with the current time. -/
theorem SendWfbLogToGround_emit (monitor : Bool) (now last : Nat)
    (f : Option (List (List Char)))
    (h : (SendWfbLogToGround monitor now last f).2.isSome = true) :
    (SendWfbLogToGround monitor now last f).1 = now ∧
    1000 ≤ Int.natAbs ((now : Int) - (last : Int)) := by
  unfold SendWfbLogToGround at h ⊢
  by_cases hm : monitor
  · rw [hm] at h ⊢
    simp only [Bool.not_true, Bool.false_eq_true, if_false] at h ⊢
    by_cases hr : (Int.natAbs ((now : Int) - (last : Int)) : Int) < 1000
    · rw [if_pos hr] at h
      simp at h
    · rw [if_neg hr] at h ⊢
      refine ⟨?_, by omega⟩
      cases f with
      | none => rfl
      | some lines =>
        simp only [] at h ⊢
        by_cases he : (parse_wfb lines 0 0).2 = 0 ∧ (parse_wfb lines 0 0).1 = 0
        · rw [if_pos he]
        · rw [if_neg he]
  · simp [hm] at h

/-- An emission by `SendTempToGround` passes the 1-second gate and stamps
`LastTempSent` with the current time. -/
theorem SendTempToGround_emit (now last : Nat) (tm : Nat) (sensor lbt : Int)
    (h : (SendTempToGround now last tm sensor lbt).2.2 ≠ []) :
    (SendTempToGround now last tm sensor lbt).1 = now ∧
    1000 ≤ Int.natAbs ((now : Int) - (last : Int)) := by
  unfold SendTempToGround at h ⊢
  by_cases hr : (Int.natAbs ((now : Int) - (last : Int)) : Int) < 1000
  · rw [if_pos hr] at h
    simp at h
  · rw [if_neg hr]
    exact ⟨rfl, by omega⟩

/-- Claim C6 as amended: the link-health and temperature producers are
each rate-limited to at most one message per second — two consecutive
emissions of either producer are at least 1000 ms apart — while the
operator-message producer has no time-based rate limit. -/
theorem C6_rate_limit_amended (monitor : Bool) (n1 n2 L : Nat)
    (f1 f2 : Option (List (List Char)))
    (m1 m2 L2 : Nat) (tm1 tm2 : Nat) (s1 s2 lbt1 lbt2 : Int)
    (hw1 : (SendWfbLogToGround monitor n1 L f1).2.isSome = true)
    (hw2 : (SendWfbLogToGround monitor n2
              (SendWfbLogToGround monitor n1 L f1).1 f2).2.isSome = true)
    (ht1 : (SendTempToGround m1 L2 tm1 s1 lbt1).2.2 ≠ [])
    (ht2 : (SendTempToGround m2 (SendTempToGround m1 L2 tm1 s1 lbt1).1 tm2 s2 lbt2).2.2 ≠ []) :
    1000 ≤ Int.natAbs ((n2 : Int) - (n1 : Int)) ∧
    1000 ≤ Int.natAbs ((m2 : Int) - (m1 : Int)) := by
  constructor
  · have e1 := SendWfbLogToGround_emit monitor n1 L f1 hw1
    have e2 := SendWfbLogToGround_emit monitor n2 (SendWfbLogToGround monitor n1 L f1).1 f2 hw2
    rw [e1.1] at e2
    exact e2.2
  · have e1 := SendTempToGround_emit m1 L2 tm1 s1 lbt1 ht1
    have e2 := SendTempToGround_emit m2 (SendTempToGround m1 L2 tm1 s1 lbt1).1 tm2 s2 lbt2 ht2
    rw [e1.1] at e2
    exact e2.2

/-- Witness for the amended C6: wfb reports at t = 5000 and t = 6000 (an
empty log line still produces a "0 dropped" report), temperature packets
at t = 5000 and t = 6000. -/
theorem C6_rate_limit_amended_witness :
    ((SendWfbLogToGround true 5000 0 (some [[]])).2.isSome = true) ∧
    ((SendWfbLogToGround true 6000 (SendWfbLogToGround true 5000 0 (some [[]])).1
        (some [[]])).2.isSome = true) ∧
    ((SendTempToGround 5000 0 0 0 25).2.2 ≠ []) ∧
    ((SendTempToGround 6000 (SendTempToGround 5000 0 0 0 25).1 0 0 25).2.2 ≠ []) ∧
    (1000 ≤ Int.natAbs ((6000 : Int) - (5000 : Int)) ∧
     1000 ≤ Int.natAbs ((6000 : Int) - (5000 : Int))) :=
  ⟨by decide, by decide, by decide, by decide,
   C6_rate_limit_amended true 5000 6000 0 (some [[]]) (some [[]]) 5000 6000 0 0 0 0 0 25 25
     (by decide) (by decide) (by decide) (by decide)⟩

/-! ### Claim C1 -/

/-- Running `process_mavlink` over a concatenation composes: states thread
through, flushed datagrams and overflow diagnostics accumulate. -/
theorem process_mavlink_append (a : Int) (xs : List ByteEvent) :
    ∀ (st : AggState) (ys : List ByteEvent),
    process_mavlink a st (xs ++ ys) =
      ⟨(process_mavlink a (process_mavlink a st xs).state ys).state,
       (process_mavlink a st xs).flushed ++
         (process_mavlink a (process_mavlink a st xs).state ys).flushed,
       (process_mavlink a st xs).overflows +
         (process_mavlink a (process_mavlink a st xs).state ys).overflows⟩ := by
  induction xs with
  | nil => intro st ys; simp [process_mavlink]
  | cons ev rest ih =>
    intro st ys
    simp only [List.cons_append, process_mavlink, List.append_eq]
    rw [ih]
    simp [List.append_assoc, Nat.add_assoc]

/-- Bytes that complete no message only accumulate while the buffer stays
at or below the overflow threshold: nothing is flushed and no diagnostic
fires. -/
theorem process_mavlink_noparse_run (a : Int) :
    ∀ (k : Nat) (st : AggState), st.mavbuf.length + k ≤ 2001 →
    process_mavlink a st (List.replicate k ⟨7, none, []⟩) =
      ⟨⟨st.mavbuf ++ List.replicate k 7, st.mavpckts_count⟩, [], 0⟩ := by
  intro k
  induction k with
  | zero =>
    intro st h
    simp [process_mavlink]
  | succ n ih =>
    intro st h
    rw [List.replicate_succ]
    have hg : ¬ 2000 < st.mavbuf.length := by omega
    have hstep : process_mavlink_byte a st ⟨7, none, []⟩ =
        (⟨st.mavbuf ++ [7], st.mavpckts_count⟩, none, false) := by
      simp [process_mavlink_byte, overflow_guard, hg]
    simp only [process_mavlink, hstep]
    rw [ih ⟨st.mavbuf ++ [7], st.mavpckts_count⟩ (by simp; omega)]
    simp [List.append_assoc, List.replicate_succ]

/-- An unparsed byte arriving on a buffer past the overflow threshold:
the pending bytes are dropped (no datagram is sent), the diagnostic fires,
and the byte lands in the emptied buffer. -/
theorem process_mavlink_byte_overflow (a : Int) (st : AggState) (ev : ByteEvent)
    (h1 : 2000 < st.mavbuf.length) (h2 : ev.parsed = none) :
    process_mavlink_byte a st ev = (⟨[ev.byte], st.mavpckts_count⟩, none, true) := by
  simp [process_mavlink_byte, overflow_guard, if_pos h1, h2]

/-- The C1 trace: 2001 unparsed bytes of value 7 fill the pending buffer,
one further byte trips the overflow guard (resetting the buffer), then a
byte completes a message so that, with `aggregate = 1`, a flush occurs. -/
def c1_events : List ByteEvent :=
  List.replicate 2001 ⟨7, none, []⟩ ++ [⟨0, none, []⟩, ⟨0, some 0, []⟩]

/-- Counterexample to claim C1: on this trace the 7-bytes are appended to
the pending buffer (after the first 2001 events the buffer holds exactly
them), the overflow diagnostic fires once, yet the only datagram the UDP
sink ever receives is `[0, 0]` — the overflow performed no force-flush and
every accumulated 7-byte was discarded, never part of any flushed
datagram. -/
theorem C1_counterexample :
    (process_mavlink 1 ⟨[], 0⟩ c1_events).flushed = [[0, 0]] ∧
    (process_mavlink 1 ⟨[], 0⟩ c1_events).overflows = 1 ∧
    (process_mavlink 1 ⟨[], 0⟩ (List.replicate 2001 ⟨7, none, []⟩)).state.mavbuf =
      List.replicate 2001 7 ∧
    (7 : Nat) ∉ ([0, 0] : List Nat) := by
  have hrun := process_mavlink_noparse_run 1 2001 ⟨[], 0⟩ (by simp)
  have hgt : 2000 < (List.replicate 2001 (7 : Nat)).length := by
    rw [List.length_replicate]
    omega
  have hstep1 : process_mavlink_byte 1 ⟨List.replicate 2001 7, 0⟩ ⟨0, none, []⟩ =
      (⟨[0], 0⟩, none, true) :=
    process_mavlink_byte_overflow 1 ⟨List.replicate 2001 7, 0⟩ ⟨0, none, []⟩ hgt rfl
  have hstep2 : process_mavlink_byte 1 ⟨[0], 0⟩ ⟨0, some 0, []⟩ =
      (⟨[], 0⟩, some [0, 0], false) := by
    decide
  have htail : process_mavlink 1 ⟨List.replicate 2001 7, 0⟩ [⟨0, none, []⟩, ⟨0, some 0, []⟩] =
      ⟨⟨[], 0⟩, [[0, 0]], 1⟩ := by
    simp only [process_mavlink, hstep1, hstep2]
    rfl
  have happ := process_mavlink_append 1 (List.replicate 2001 ⟨7, none, []⟩) ⟨[], 0⟩
      [⟨0, none, []⟩, ⟨0, some 0, []⟩]
  rw [List.nil_append] at hrun
  have htotal : process_mavlink 1 ⟨[], 0⟩ c1_events = ⟨⟨[], 0⟩, [[0, 0]], 1⟩ := by
    unfold c1_events
    rw [happ]
    simp only [hrun, htail, List.nil_append, Nat.zero_add]
  exact ⟨by rw [htotal], by rw [htotal], by rw [hrun], by decide⟩

/-- Claim C1 as amended: when appending the next inbound byte finds the
pending buffer past the 2000-byte threshold, the accumulated pending bytes
are discarded — the buffer is reset to empty without anything being sent
to the UDP sink — the overflow diagnostic is recorded, and the new byte is
appended to the emptied buffer.  Bytes accumulated since the last flush
are therefore lost on overflow, not force-flushed. -/
theorem C1_overflow_discards_amended (a : Int) (st : AggState) (ev : ByteEvent)
    (h1 : 2000 < st.mavbuf.length) (h2 : ev.parsed = none) :
    process_mavlink_byte a st ev = (⟨[ev.byte], st.mavpckts_count⟩, none, true) := by
  simp [process_mavlink_byte, overflow_guard, if_pos h1, h2]

/-- Witness for the amended C1: a buffer of 2001 bytes, one more unparsed
byte arrives — everything previously pending is dropped. -/
theorem C1_overflow_discards_amended_witness :
    (2000 < (AggState.mk (List.replicate 2001 3) 0).mavbuf.length) ∧
    process_mavlink_byte 5 ⟨List.replicate 2001 3, 0⟩ ⟨9, none, []⟩ =
      (⟨[9], 0⟩, none, true) := by
  have hgt : 2000 < (List.replicate 2001 (3 : Nat)).length := by
    rw [List.length_replicate]
    omega
  exact ⟨hgt, C1_overflow_discards_amended 5 ⟨List.replicate 2001 3, 0⟩ ⟨9, none, []⟩ hgt rfl⟩
